import Mathlib

/-!
Verification of the question-answering orchestration core of the
Neo4j-webpageGPT5 repository, shallowly embedded from the Python sources
`backend.py`, `main.py` and (for the department patcher) `new.py`.
External collaborators (the LLM, the Neo4j driver and its indexes) are
modelled as function-valued parameters carried by a `World`/`Db` record;
every fixed Cypher query that the code sends to the database is embedded
as a Lean function over that abstract graph data.
-/

/-! ## Python string helpers -/

/-- Whitespace as recognised by Python's `str.strip` / `str.split` (ASCII part). -/
def pyIsSpace (c : Char) : Bool :=
  c == ' ' || c == '\t' || c == '\n' || c == '\r' || c == '\x0b' || c == '\x0c'

/-- Python `str.strip()`. -/
def pyStrip (s : String) : String :=
  String.mk (((s.data.dropWhile pyIsSpace).reverse.dropWhile pyIsSpace).reverse)

/-- Python `str.lower()` (ASCII). -/
def pyLower (s : String) : String :=
  String.mk (s.data.map Char.toLower)

/-- Python `str.split()` with no argument: split on whitespace runs, dropping empties. -/
def pySplitWs (s : String) : List String :=
  (s.split pyIsSpace).filter (fun t => ¬ t = "")

/-- Python slice `l[-n:]`: the `n` most recent elements. -/
def lastN {α : Type} (n : Nat) (l : List α) : List α :=
  l.drop (l.length - n)

/-! ## JSON-ish slot values and Python truthiness -/

/-- Values that can inhabit the loosely-typed intent slots coming from the
LLM's JSON. Per the data model the `department` slot is either a string or
an explicit list of strings, so list values carry strings. -/
inductive Json where
  | null
  | bool (b : Bool)
  | num (n : Int)
  | str (s : String)
  | arr (xs : List String)
deriving DecidableEq

/-- Python truthiness of a JSON value. -/
def jtruthy : Json → Bool
  | .null => false
  | .bool b => b
  | .num n => decide (¬ n = 0)
  | .str s => decide (¬ s = "")
  | .arr xs => decide (¬ xs = [])

/-- Python truthiness of an optional string slot (`None` and `""` are falsy). -/
def truthyS : Option String → Bool
  | none => false
  | some s => ¬ s = ""

/-! ## Data model -/

/-- Conversation turn (`{role, content}`), as stored in the session. -/
structure Turn where
  role : String
  content : String
deriving DecidableEq

/-- The intent record produced by `classify_intent` (all keys defaulted to
null) and enriched in place by the orchestrator (`authorUserId`). -/
structure Intent where
  intent : Option String := none
  author : Option String := none
  second_author : Option String := none
  authorUserId : Option String := none
  topic : Option String := none
  department : Json := Json.null
  start_year : Option Int := none
  end_year : Option Int := none
  scope : Option String := none
deriving DecidableEq

/-! ## Department normalization (`backend.py`) -/

def ENGINEERING_ALIASES : List String :=
  [ "engineering"
  , "uofa engineering"
  , "ualberta engineering"
  , "faculty of engineering"
  , "faculty engineering"
  , "engg" ]

def ENGINEERING_DEPARTMENTS : List String :=
  [ "Electrical and Computer Engineering"
  , "Mechanical Engineering"
  , "Civil and Environmental Engineering"
  , "Chemical and Materials Engineering"
  , "Biomedical Engineering" ]

/-- Embeds `_normalize_department_value`: `None` and lists pass through,
strings whose stripped lowercase form is an engineering alias expand to
the concrete engineering department list, any other value is unchanged. -/
def normalize_department_value (dept : Json) : Json :=
  match dept with
  | .null => .null
  | .arr xs => .arr xs
  | .str s =>
    if pyLower (pyStrip s) ∈ ENGINEERING_ALIASES then
      Json.arr ENGINEERING_DEPARTMENTS
    else .str s
  | d => d

/-- Embeds `normalize_intent`: shallow copy with the `department` slot
replaced by its normalized value; every other field is untouched. -/
def normalize_intent (i : Intent) : Intent :=
  { i with department := normalize_department_value i.department }

/-- Spec-side restatement of the normalization rule of claim C8, written from
the claim's words: an alias string (stripped, lowercased) becomes the fixed
engineering list, any other string and any explicit list pass through. -/
def claimNormalizeDept : Json → Json
  | .str s =>
    if pyLower (pyStrip s) ∈ ENGINEERING_ALIASES then
      Json.arr ENGINEERING_DEPARTMENTS
    else .str s
  | d => d

/-- C7: the intent normalizer is idempotent: for every intent record `i`,
`normalize_intent (normalize_intent i) = normalize_intent i`. -/
theorem C7_normalize_idempotent (i : Intent) :
    normalize_intent (normalize_intent i) = normalize_intent i := by
  unfold normalize_intent normalize_department_value
  cases hd : i.department with
  | null => rfl
  | bool b => rfl
  | num n => rfl
  | arr xs => rfl
  | str s =>
    by_cases h : pyLower (pyStrip s) ∈ ENGINEERING_ALIASES
    · simp [h]
    · simp [h]

/-- C8: normalization replaces engineering-alias department strings by the
fixed engineering department list, passes any other string and any explicit
list through unchanged, and leaves every other intent field identical — the
code-side `normalize_intent` agrees with the rule written out from the
claim's words (`claimNormalizeDept`) on the `department` slot and is the
identity elsewhere. -/
theorem C8_normalize_department (i : Intent) :
    normalize_intent i = { i with department := claimNormalizeDept i.department } := by
  unfold normalize_intent normalize_department_value claimNormalizeDept
  cases i.department <;> rfl

/-! ## Graph data model (abstracting the Neo4j database) -/

/-- A `:Researcher` node, with the properties the resolver's queries touch. -/
structure Researcher where
  name : Option String := none
  normalized_name : Option String := none
  userId : Option String := none
  ccid : Option String := none
deriving DecidableEq

/-- A `:Person` node (the author-profile side used by the vector queries). -/
structure Person where
  name : Option String := none
  normalized_name : Option String := none
  userId : Option String := none
  ccid : Option String := none
deriving DecidableEq

/-- A `:Publication` node, with the properties projected by the vector queries. -/
structure Pub where
  title : Option String := none
  abstract : Option String := none
  publication_year : Option Int := none
  cited_by_count : Option Int := none
  openalex_url : Option String := none
  doi : Option String := none
deriving DecidableEq

/-- A semantic hit row as returned to the frontend. Topic-mode rows carry no
`cited_by_count`/`doi` column; cohort-mode rows carry all columns. -/
structure Hit where
  title : Option String := none
  abstract : Option String := none
  publication_year : Option Int := none
  openalex_url : Option String := none
  cited_by_count : Option Int := none
  doi : Option String := none
  score : Rat := 0
deriving DecidableEq

/-- A fuzzy-resolution candidate row (`resolve_author`'s fuzzy Cypher RETURN). -/
structure Candidate where
  userId : Option String := none
  name : Option String := none
  normalized_name : Option String := none
  departments : List String := []
  score : Rat := 0
deriving DecidableEq

/-- The row returned by the exact-match Cypher in `resolve_author`. -/
structure ExactRow where
  userId : Option String := none
  name : Option String := none
  normalized_name : Option String := none
deriving DecidableEq

/-- A row of an LLM-generated Cypher query (column name to value). -/
abbrev DBRow := List (String × Json)

deriving instance DecidableEq for Except

/-- The abstract graph database: node sets, relationship accessors, and the
two index entry points (fulltext scoring and vector-nearest retrieval) whose
internals live inside Neo4j. `vectorQuery` may fail (`Except.error`), which
models the vector index being offline or misconfigured. -/
structure Db where
  researchers : List Researcher
  researcherDepts : Researcher → List String
  fulltext : String → List (Researcher × Rat)
  persons : List Person
  pubAuthors : Pub → List Person
  vectorQuery : List Rat → Nat → Except String (List (Pub × Rat))

/-- Cypher `node.userId IS NOT NULL OR node.ccid IS NOT NULL` on researchers. -/
def inHouseR (r : Researcher) : Bool := r.userId.isSome || r.ccid.isSome

/-- Cypher `person.userId IS NOT NULL OR person.ccid IS NOT NULL` on persons. -/
def inHouseP (p : Person) : Bool := p.userId.isSome || p.ccid.isSome

/-! ## Ordering relations used by `ORDER BY ... DESC` clauses -/

/-- Descending order on a score projection (`ORDER BY score DESC`). -/
def byScoreDesc {α : Type} (f : α → Rat) (a b : α) : Prop := f b ≤ f a

instance {α : Type} (f : α → Rat) : DecidableRel (byScoreDesc f) :=
  fun a b => inferInstanceAs (Decidable (f b ≤ f a))

instance {α : Type} (f : α → Rat) : IsTotal α (byScoreDesc f) :=
  ⟨fun a b => le_total (f b) (f a)⟩

instance {α : Type} (f : α → Rat) : IsTrans α (byScoreDesc f) :=
  ⟨fun _ _ _ h1 h2 => le_trans h2 h1⟩

/-- Descending order on `r.name` (`ORDER BY r.name DESC`; Cypher puts nulls
first in descending order). -/
def nameDescB (a b : Researcher) : Bool :=
  match a.name, b.name with
  | none, _ => true
  | some _, none => false
  | some x, some y => decide (y ≤ x)

def nameDesc (a b : Researcher) : Prop := nameDescB a b = true

instance : DecidableRel nameDesc := fun _ _ => instDecidableEqBool _ _

/-! ## Author resolution (`resolve_author` in `backend.py`) -/

/-- Whether a researcher row satisfies the exact-match Cypher's WHERE clause
for the given input name: case-insensitive equality on `name` or
`normalized_name`, restricted to the in-house cohort. -/
def rMatches (qname : String) (r : Researcher) : Bool :=
  ((match r.name with
    | some n => pyLower n == pyLower qname
    | none => false)
   ||
   (match r.normalized_name with
    | some n => pyLower n == pyLower qname
    | none => false))
  && inHouseR r

/-- Embeds the exact-match Cypher: filter by `rMatches`, `ORDER BY r.name
DESC`, `LIMIT 1`, projecting `userId`, `coalesce(name, normalized_name)` and
`normalized_name`. -/
def exactQuery (db : Db) (qname : String) : Option ExactRow :=
  ((List.insertionSort nameDesc (db.researchers.filter (rMatches qname))).head?).map
    (fun r => { userId := r.userId
              , name := r.name <|> r.normalized_name
              , normalized_name := r.normalized_name })

/-- Embeds the fuzzy term construction: one `~` per whitespace token when the
name contains a space, else a single trailing `~`. -/
def fuzzyTerm (author_name : String) : String :=
  if author_name.contains ' ' then
    String.intercalate " " ((pySplitWs author_name).map (fun part => part ++ "~"))
  else author_name ++ "~"

/-- Candidate row projection of the fuzzy Cypher's RETURN clause. -/
def mkCandidate (db : Db) (p : Researcher × Rat) : Candidate :=
  { userId := p.1.userId
  , name := p.1.name <|> p.1.normalized_name
  , normalized_name := p.1.normalized_name
  , departments := db.researcherDepts p.1
  , score := p.2 }

/-- Embeds the fuzzy Cypher: fulltext index lookup, WHERE in-house cohort,
`ORDER BY score DESC`, `LIMIT 5`, candidate projection. -/
def fuzzyQuery (db : Db) (term : String) : List Candidate :=
  ((List.insertionSort (byScoreDesc (fun p : Researcher × Rat => p.2))
      ((db.fulltext term).filter (fun p => inHouseR p.1))).take 5).map (mkCandidate db)

/-- Resolution path recorded in telemetry metadata. -/
inductive ResPath | NONE | EXACT | FUZZY
deriving DecidableEq

/-- Telemetry metadata attached by `resolve_author`. -/
structure ResMeta where
  resolution_path : ResPath
  fuzzy_scores : List Rat := []
deriving DecidableEq

/-- Embeds `resolve_author`: strip the author slot; empty means NONE; a
unique exact match populates `author`/`authorUserId` (EXACT); otherwise the
fuzzy fulltext lookup yields up to five candidates that are returned without
auto-selecting (FUZZY). -/
def resolve_author (db : Db) (intent_obj : Intent) :
    Intent × Option (List Candidate) × ResMeta :=
  let author_name := pyStrip (intent_obj.author.getD "")
  if author_name = "" then (intent_obj, none, ⟨.NONE, []⟩)
  else
    match exactQuery db author_name with
    | some row =>
      ({ intent_obj with author := row.name, authorUserId := row.userId },
        none, ⟨.EXACT, []⟩)
    | none =>
      let rows := fuzzyQuery db (fuzzyTerm author_name)
      if rows = [] then (intent_obj, none, ⟨.FUZZY, rows.map Candidate.score⟩)
      else (intent_obj, some rows, ⟨.FUZZY, rows.map Candidate.score⟩)

/-! ## The external world of the orchestrator -/

/-- The abstract collaborators of `answer_question`: the database, the LLM
calls (classification, Cypher generation, name extraction, the three
synthesis prompts), the embedding endpoint and the executor for
LLM-generated Cypher. Each is a pure function parameter: the orchestrator's
own logic is what is embedded concretely. -/
structure World where
  db : Db
  classify : String → Intent
  embed : String → List Rat
  genCypher : Intent → String
  authorCypherLlm : List String → String
  extractName : String → String
  runCypher : String → List DBRow
  runCypherTitles : String → List String → List DBRow
  synthAnswer : String → Intent → String → List DBRow → List Hit → List Turn → String
  synthFinal : String → List Hit → List DBRow → List Turn → String
  reask : String → List Hit → String → String

/-- Embeds `get_embedding`: empty input yields the empty vector. -/
def get_embedding (w : World) (text : String) : List Rat :=
  if text = "" then [] else w.embed text

/-! ## Semantic search (`backend.py`) -/

/-- Minimum relevance threshold (`MIN_RELEVANCE_SCORE = 0.7`). -/
def MIN_RELEVANCE_SCORE : Rat := mkRat 7 10

/-- Topic-mode row projection (no `cited_by_count`/`doi` columns). -/
def mkTopicHit (p : Pub × Rat) : Hit :=
  { openalex_url := p.1.openalex_url
  , title := p.1.title
  , abstract := p.1.abstract
  , publication_year := p.1.publication_year
  , cited_by_count := none
  , doi := none
  , score := p.2 }

/-- Embeds `semantic_search_publications` (topic mode): falsy topic or empty
embedding yield `[]`; a failing vector query is caught and yields `[]`; a
successful query returns the index rows projected, with no cohort filter. -/
def semantic_search_publications (w : World) (topic : Option String) (k : Nat) : List Hit :=
  match topic with
  | none => []
  | some t =>
    if t = "" then []
    else
      let embedding := get_embedding w t
      if embedding = [] then []
      else
        match w.db.vectorQuery embedding k with
        | .error _ => []
        | .ok raw => raw.map mkTopicHit

/-- Cohort-mode row projection (`coalesce(node.cited_by_count, 0)` etc.). -/
def mkCohortHit (p : Pub × Rat) : Hit :=
  { title := p.1.title
  , publication_year := p.1.publication_year
  , cited_by_count := some (p.1.cited_by_count.getD 0)
  , abstract := p.1.abstract
  , openalex_url := p.1.openalex_url
  , doi := p.1.doi
  , score := p.2 }

/-- The cohort join of the fallback Cypher: one row per (publication,
in-house person) pair reachable through an author profile. -/
def cohortRows (db : Db) (raw : List (Pub × Rat)) : List (Pub × Rat) :=
  raw.flatMap (fun p => ((db.pubAuthors p.1).filter inHouseP).map (fun _ => p))

/-- Embeds `_semantic_search_with_embedding` (cohort fallback mode): empty
embedding yields `[]`; a failing vector query is caught and yields `[]`;
otherwise the index rows are joined to in-house persons, ordered by
descending score and truncated to `k`. No minimum-score filter is applied. -/
def semantic_search_with_embedding (db : Db) (embedding : List Rat) (k : Nat) : List Hit :=
  if embedding = [] then []
  else
    match db.vectorQuery embedding k with
    | .error _ => []
    | .ok raw =>
      ((List.insertionSort (byScoreDesc (fun p : Pub × Rat => p.2))
          (cohortRows db raw)).take k).map mkCohortHit

/-! ## Query generation wrappers -/

/-- Embeds `generate_cypher`: the LLM output, stripped. -/
def generate_cypher (w : World) (i : Intent) : String :=
  pyStrip (w.genCypher i)

/-- Truthy titles of a hit list (`[hit.get("title") for hit in hits if hit.get("title")]`). -/
def truthyTitles (hits : List Hit) : List String :=
  hits.filterMap (fun h =>
    match h.title with
    | some t => if t = "" then none else some t
    | none => none)

/-- Embeds `generate_author_cypher`: empty title list short-circuits to `""`;
otherwise the LLM output with markdown fencing removed, stripped. -/
def generate_author_cypher (w : World) (hits : List Hit) : String :=
  let titles := truthyTitles hits
  if titles = [] then ""
  else pyStrip (((w.authorCypherLlm titles).replace "```cypher" "").replace "```" "")

/-! ## Planner predicates (`backend.py`) -/

def TOPIC_INTENTS : List String :=
  [ "AUTHOR_TOPIC_PUBLICATION_COUNT"
  , "AUTHOR_TOPIC_EXTENT"
  , "AUTHOR_TOPIC_SYNERGY"
  , "AUTHOR_TOPIC_PEERS_AT_UOFA"
  , "DEPARTMENT_TOPIC_TRENDS" ]

def TEMPLATE_INTENTS : List String :=
  [ "AUTHOR_PUBLICATIONS_RANGE"
  , "AUTHOR_LATEST_PUBLICATION"
  , "AUTHOR_TOP_VENUE"
  , "AUTHOR_PAIR_SHARED_PUBLICATIONS"
  , "AUTHOR_TOP_COAUTHORS"
  , "AUTHOR_TOPIC_PUBLICATION_COUNT"
  , "AUTHOR_TOPIC_EXTENT"
  , "AUTHOR_MAIN_RESEARCH_AREAS"
  , "AUTHOR_TOPIC_SYNERGY"
  , "AUTHOR_INSTITUTION_COLLAB_FREQUENCY"
  , "AUTHOR_TOPIC_PEERS_AT_UOFA"
  , "DEPARTMENT_TOPIC_TRENDS" ]

/-- `TEMPLATE_INTENTS - {"DEPARTMENT_TOPIC_TRENDS"}`. -/
def AUTHOR_INTENTS_REQUIRING_AUTHOR : List String :=
  TEMPLATE_INTENTS.filter (fun s => decide (¬ s = "DEPARTMENT_TOPIC_TRENDS"))

/-- Python `intent_obj.get("intent") in S` (a null kind is in no set). -/
def kindMem (l : List String) (k : Option String) : Bool :=
  match k with
  | some s => decide (s ∈ l)
  | none => false

/-- Embeds `is_template_intent`. -/
def is_template_intent (i : Intent) : Bool :=
  kindMem TEMPLATE_INTENTS i.intent

/-- Embeds `has_required_slots`: author-bound template intents require a
truthy `authorUserId`; the shared-publication pair intent additionally
requires a truthy `second_author`; department trends require a truthy
`department`. -/
def has_required_slots (i : Intent) : Bool :=
  if kindMem AUTHOR_INTENTS_REQUIRING_AUTHOR i.intent && !(truthyS i.authorUserId) then
    false
  else if (i.intent == some "AUTHOR_PAIR_SHARED_PUBLICATIONS")
      && !(truthyS i.authorUserId && truthyS i.second_author) then
    false
  else if (i.intent == some "DEPARTMENT_TOPIC_TRENDS") && !(jtruthy i.department) then
    false
  else true

/-- The branch condition of STEP 4 in `answer_question`. -/
def routeTemplate (i : Intent) : Bool :=
  is_template_intent i && has_required_slots i

/-! ## The orchestrator (`answer_question` in `backend.py`) -/

/-- The response record assembled by `answer_question` (`result` dict). -/
structure Result where
  answer : String
  intent : Intent
  cypher : String := ""
  dbRows : List DBRow := []
  semanticHits : List Hit := []
  candidates : Option (List Candidate) := none
deriving DecidableEq

/-- The disambiguation menu answer (the f-string of the candidates branch). -/
def MENU_ANSWER (author_to_check : String) : String :=
  "I couldn\x27t find exact matches for \x27" ++ author_to_check ++
  "\x27, but I found similar researchers. Please select one:"

/-- The guidance answer used when the semantic-fallback path finds no hits. -/
def NO_RESULTS_ANSWER : String :=
  "I could not find any relevant UAlberta publications or researchers matching your question with high confidence.\n\n**Suggestions:**\n- Try asking about specific engineering topics like \x27smart grids\x27, \x27reinforcement learning\x27, or \x27nanotechnology\x27.\n- Ask about specific University of Alberta researchers or departments.\n- Ensure you are asking about work specifically within the Faculty of Engineering."

/-- Embeds STEP 3 of `answer_question` (author resolution, the dead
name-extraction guard, intent promotion, and the direct-selection branch).
Returns the per-request intent after possible in-place updates, the
candidate list when the fuzzy menu must be shown, and whether the
name-extraction LLM call was issued. -/
def resolutionStage (w : World) (intent_obj : Intent) (question : String)
    (selected_user_id : Option String) : Intent × Option (List Candidate) × Bool :=
  let author_to_check := intent_obj.author
  if truthyS author_to_check && !(truthyS selected_user_id) then
    let extractionUsed := !(truthyS author_to_check)
    let author2 :=
      if extractionUsed then
        let extracted := pyStrip (w.extractName question)
        if (¬ extracted = "") && extracted.length > 3 then some extracted
        else author_to_check
      else author_to_check
    if truthyS author2 then
      let temp_intent := { intent_obj with author := author2 }
      match resolve_author w.db temp_intent with
      | (_, some cands, _) => (intent_obj, some cands, extractionUsed)
      | (updated_intent, none, _) =>
        if truthyS updated_intent.authorUserId then
          let i2 := { intent_obj with
                        author := updated_intent.author
                      , authorUserId := updated_intent.authorUserId }
          if i2.intent = some "OPEN_QUESTION" then
            ({ i2 with intent := some "AUTHOR_PUBLICATIONS_RANGE" }, none, extractionUsed)
          else (i2, none, extractionUsed)
        else (intent_obj, none, extractionUsed)
    else (intent_obj, none, extractionUsed)
  else if truthyS selected_user_id then
    match selected_user_id with
    | some uid =>
      let i2 := { intent_obj with authorUserId := some uid }
      let i3 :=
        match w.db.persons.find? (fun p => p.userId == some uid) with
        | some p => { i2 with author := p.name <|> p.normalized_name }
        | none => i2
      if i3.intent = some "OPEN_QUESTION" then
        ({ i3 with intent := some "AUTHOR_MAIN_RESEARCH_AREAS" }, none, false)
      else (i3, none, false)
    | none => (intent_obj, none, false)
  else (intent_obj, none, false)

/-- The topic-mode hits computed in the template branch: only topic-bearing
intents trigger the search, and the minimum relevance threshold is applied
to them there. -/
def topicHitsFor (w : World) (i : Intent) : List Hit :=
  if kindMem TOPIC_INTENTS i.intent then
    (semantic_search_publications w i.topic 200).filter
      (fun h => decide (MIN_RELEVANCE_SCORE ≤ h.score))
  else []

/-- Embeds `answer_question`: classification and question embedding, the
resolution stage, and the two branches of STEP 4 (structured template flow
with optional topic search and semantic fallback on empty results; open
question / semantic flow with author discovery). -/
def answer_question (w : World) (question : String) (history : List Turn)
    (selected_user_id : Option String) : Result :=
  let intent0 := normalize_intent (w.classify question)
  let question_embedding := get_embedding w question
  let rs := resolutionStage w intent0 question selected_user_id
  let intent1 := rs.1
  match rs.2.1 with
  | some cands =>
    { answer := MENU_ANSWER (intent0.author.getD "")
    , intent := intent1
    , candidates := some cands }
  | none =>
    if routeTemplate intent1 then
      let cypher := generate_cypher w intent1
      let topicHits := topicHitsFor w intent1
      let db_rows := w.runCypher cypher
      let semantic_hits :=
        if db_rows = [] ∧ topicHits = [] then
          semantic_search_with_embedding w.db question_embedding 20
        else topicHits
      let answer0 := w.synthAnswer question intent1 cypher db_rows semantic_hits history
      let answer1 :=
        if db_rows = [] ∧ ¬ semantic_hits = [] then w.reask question semantic_hits answer0
        else answer0
      { answer := answer1
      , intent := intent1
      , cypher := cypher
      , dbRows := db_rows
      , semanticHits := semantic_hits }
    else
      let sem_hits := semantic_search_with_embedding w.db question_embedding 20
      if sem_hits = [] then
        { answer := NO_RESULTS_ANSWER, intent := intent1 }
      else
        let author_cypher := generate_author_cypher w sem_hits
        let titles := truthyTitles sem_hits
        let author_rows := w.runCypherTitles author_cypher titles
        { answer := w.synthFinal question sem_hits author_rows history
        , intent := intent1
        , cypher := author_cypher
        , dbRows := author_rows
        , semanticHits := sem_hits }

/-! ## The HTTP handler (`api_query` in `main.py`) -/

/-- The outcome of `POST /api/query`: status, the pipeline result (absent on
a validation error), and the conversation history stored back in the session. -/
structure ApiResponse where
  status : Nat
  result : Option Result
  history : List Turn
deriving DecidableEq

/-- Embeds `api_query`: a blank question is a 400 validation error that
leaves the session history untouched; otherwise the backend runs, then one
user turn and one assistant turn are appended (in that order, once) and the
history is trimmed to its ten most recent turns. -/
def api_query (w : World) (rawQuestion : String) (selected_user_id : Option String)
    (history : List Turn) : ApiResponse :=
  let question := pyStrip rawQuestion
  if question = "" then
    { status := 400, result := none, history := history }
  else
    let result := answer_question w question history selected_user_id
    let newHistory :=
      lastN 10 (history ++ [⟨"user", question⟩, ⟨"assistant", result.answer⟩])
    { status := 200, result := some result, history := newHistory }

/-! ## Department WHERE-clause patcher (`patch_dept_where_clause` in `new.py`) -/

/-- Case-insensitive match of a literal pattern; returns the rest on success. -/
def matchLit : List Char → List Char → Option (List Char)
  | [], cs => some cs
  | _ :: _, [] => none
  | p :: ps, c :: cs => if p.toLower = c.toLower then matchLit ps cs else none

/-- Skip a (possibly empty) run of whitespace (regex `\s*`, greedy). -/
def wsAll : List Char → List Char
  | [] => []
  | c :: cs => if pyIsSpace c then wsAll cs else c :: cs

/-- Require at least one whitespace character (regex `\s+`, greedy). -/
def ws1 : List Char → Option (List Char)
  | [] => none
  | c :: cs => if pyIsSpace c then some (wsAll cs) else none

/-- Match the patcher's regex
`WHERE\s+toLower\(d\.department\)\s*=\s*toLower\(deptName\)` (IGNORECASE)
at the head of the input; returns the remainder after the match. -/
def deptPat (cs : List Char) : Option (List Char) :=
  (matchLit "WHERE".data cs).bind fun r1 =>
  (ws1 r1).bind fun r2 =>
  (matchLit "toLower(d.department)".data r2).bind fun r3 =>
  (matchLit "=".data (wsAll r3)).bind fun r4 =>
  matchLit "toLower(deptName)".data (wsAll r4)

/-- The patcher's replacement text (adds the `abbr` coalesce alternative). -/
def PATCH_REPLACEMENT : String :=
  "WHERE toLower(d.department) = toLower(deptName) OR toLower(coalesce(d.abbr, \x27\x27)) = toLower(deptName)"

/-- Left-to-right, non-overlapping substitution (`re.subn`), fuelled by the
input length (each match consumes at least one character). -/
def patchGo : Nat → List Char → List Char
  | 0, cs => cs
  | _ + 1, [] => []
  | fuel + 1, c :: cs =>
    match deptPat (c :: cs) with
    | some rest => PATCH_REPLACEMENT.data ++ patchGo fuel rest
    | none => c :: patchGo fuel cs

/-- Embeds `patch_dept_where_clause`: broaden the specific department WHERE
clause so it also matches the `abbr` property. -/
def patch_dept_where_clause (q : String) : String :=
  String.mk (patchGo q.data.length q.data)

/-! ## Claim-side routing predicates (written from the claim's words) -/

/-- Required-slot predicate exactly as claim C5 words it: department trends
require a non-null `department`; the shared-publication pair intent requires
the resolved author id and `second_author` to be present; every other
template intent requires the resolved author id to be present. -/
def claimRequiredSlots (i : Intent) : Prop :=
  match i.intent with
  | none => ¬ i.authorUserId = none
  | some k =>
    if k = "DEPARTMENT_TOPIC_TRENDS" then ¬ i.department = Json.null
    else if k = "AUTHOR_PAIR_SHARED_PUBLICATIONS" then
      ¬ i.authorUserId = none ∧ ¬ i.second_author = none
    else ¬ i.authorUserId = none

/-- Required-slot predicate as the code actually enforces it: the slots must
be truthy (non-null and non-empty), not merely non-null. -/
def truthyRequiredSlots (i : Intent) : Prop :=
  match i.intent with
  | none => truthyS i.authorUserId = true
  | some k =>
    if k = "DEPARTMENT_TOPIC_TRENDS" then jtruthy i.department = true
    else if k = "AUTHOR_PAIR_SHARED_PUBLICATIONS" then
      truthyS i.authorUserId = true ∧ truthyS i.second_author = true
    else truthyS i.authorUserId = true

/-- An intent with kind `DEPARTMENT_TOPIC_TRENDS` and an empty-string
department: the department slot is non-null, yet the code routes it to the
semantic fallback because the empty string is falsy. -/
def cintent5 : Intent := { intent := some "DEPARTMENT_TOPIC_TRENDS", department := Json.str "" }

/-- C5 counterexample: for `cintent5` the claim's routing equivalence fails —
the kind is in the template set and the department is non-null as the claim
requires, but `routeTemplate` still takes the semantic-fallback path. -/
theorem C5_counterexample :
    ¬ (routeTemplate cintent5 = true
        ↔ (kindMem TEMPLATE_INTENTS cintent5.intent = true ∧ claimRequiredSlots cintent5)) := by
  intro h
  have h2 : routeTemplate cintent5 = true := by
    refine h.mpr ⟨by decide, ?_⟩
    simp [claimRequiredSlots, cintent5]
  exact absurd h2 (by decide)

/-- Computed value of `TEMPLATE_INTENTS - {"DEPARTMENT_TOPIC_TRENDS"}`. -/
theorem author_req_eq :
    AUTHOR_INTENTS_REQUIRING_AUTHOR
      = [ "AUTHOR_PUBLICATIONS_RANGE"
        , "AUTHOR_LATEST_PUBLICATION"
        , "AUTHOR_TOP_VENUE"
        , "AUTHOR_PAIR_SHARED_PUBLICATIONS"
        , "AUTHOR_TOP_COAUTHORS"
        , "AUTHOR_TOPIC_PUBLICATION_COUNT"
        , "AUTHOR_TOPIC_EXTENT"
        , "AUTHOR_MAIN_RESEARCH_AREAS"
        , "AUTHOR_TOPIC_SYNERGY"
        , "AUTHOR_INSTITUTION_COLLAB_FREQUENCY"
        , "AUTHOR_TOPIC_PEERS_AT_UOFA" ] := by
  decide

/-- C5 (amended): the template path condition holds iff the intent kind is in
the template set and the required slots are truthy (non-null and non-empty):
department trends need a truthy department, the pair intent needs a truthy
resolved author id and a truthy second author, every other template intent
needs a truthy resolved author id. -/
theorem C5_routing (i : Intent) :
    routeTemplate i = true
      ↔ (kindMem TEMPLATE_INTENTS i.intent = true ∧ truthyRequiredSlots i) := by
  cases hk : i.intent with
  | none =>
    simp [routeTemplate, is_template_intent, kindMem, truthyRequiredSlots, hk]
  | some k =>
    simp only [routeTemplate, is_template_intent, Bool.and_eq_true, hk]
    refine and_congr_right fun hT => ?_
    by_cases hD : k = "DEPARTMENT_TOPIC_TRENDS"
    · subst hD
      have hA : kindMem AUTHOR_INTENTS_REQUIRING_AUTHOR (some "DEPARTMENT_TOPIC_TRENDS")
          = false := by decide
      simp only [has_required_slots, truthyRequiredSlots, hk, hA]
      cases hj : jtruthy i.department <;> simp [hj]
    · by_cases hP : k = "AUTHOR_PAIR_SHARED_PUBLICATIONS"
      · subst hP
        have hA : kindMem AUTHOR_INTENTS_REQUIRING_AUTHOR
            (some "AUTHOR_PAIR_SHARED_PUBLICATIONS") = true := by decide
        simp only [has_required_slots, truthyRequiredSlots, hk, hA, hD]
        cases hu : truthyS i.authorUserId <;>
          cases hs : truthyS i.second_author <;> simp [hu, hs]
      · have hA : kindMem AUTHOR_INTENTS_REQUIRING_AUTHOR (some k) = true := by
          simp only [kindMem, decide_eq_true_eq] at hT ⊢
          simp [AUTHOR_INTENTS_REQUIRING_AUTHOR, List.mem_filter, hT, hD]
        simp only [has_required_slots, truthyRequiredSlots, hk, hA, hD, hP]
        cases hu : truthyS i.authorUserId <;> simp [hu, hD, hP]

/-- C10: the name-extraction LLM call in the resolution stage is dead code —
the enclosing branch requires a truthy author while the inner guard requires
a falsy one, so the extraction flag is false on every input. -/
theorem C10_extraction_unreachable (w : World) (i : Intent) (q : String)
    (sel : Option String) :
    (resolutionStage w i q sel).2.2 = false := by
  simp only [resolutionStage]
  (repeat' split) <;> simp_all

/-- C9: a failure of the vector-index query is caught inside both vector
search helpers: they return the empty hit list instead of propagating the
error (and in this embedding they are total functions, so no exception can
escape them). -/
theorem C9_vector_failure_yields_empty (w : World) (t : String) (emb : List Rat)
    (k : Nat) (e1 e2 : String)
    (h1 : w.db.vectorQuery (get_embedding w t) 200 = Except.error e1)
    (h2 : w.db.vectorQuery emb k = Except.error e2) :
    semantic_search_publications w (some t) 200 = []
      ∧ semantic_search_with_embedding w.db emb k = [] := by
  constructor
  · unfold semantic_search_publications
    by_cases ht : t = ""
    · simp [ht]
    · by_cases he : get_embedding w t = []
      · simp [ht, he]
      · simp [ht, he, h1]
  · unfold semantic_search_with_embedding
    by_cases he : emb = []
    · simp [he]
    · simp [he, h2]

/-- Trimming to the last `n` elements never yields more than `n` elements. -/
theorem lastN_length_le {α : Type} (n : Nat) (l : List α) : (lastN n l).length ≤ n := by
  unfold lastN
  rw [List.length_drop]
  omega

/-- C3: for every request that is not a validation error, the stored history
is the input history plus exactly one appended user turn followed by one
assistant turn (in that order, appended once after synthesis), trimmed to
the ten most recent turns; its length is therefore at most ten. -/
theorem C3_history_window (w : World) (q : String) (sel : Option String)
    (hist : List Turn) (h : ¬ pyStrip q = "") :
    (api_query w q sel hist).history
        = lastN 10 (hist ++ [⟨"user", pyStrip q⟩,
            ⟨"assistant", (answer_question w (pyStrip q) hist sel).answer⟩])
      ∧ (api_query w q sel hist).history.length ≤ 10 := by
  unfold api_query
  rw [if_neg h]
  exact ⟨rfl, lastN_length_le 10 _⟩

/-! ## Structure eta helper and fuzzy-query facts -/

/-- Rebuilding an intent from its own fields is the identity (structure eta). -/
theorem intent_eta (i : Intent) :
    (⟨i.intent, i.author, i.second_author, i.authorUserId, i.topic,
      i.department, i.start_year, i.end_year, i.scope⟩ : Intent) = i := rfl

/-- The fuzzy Cypher returns at most five rows (`LIMIT 5`). -/
theorem fuzzyQuery_length_le (db : Db) (term : String) :
    (fuzzyQuery db term).length ≤ 5 := by
  unfold fuzzyQuery
  rw [List.length_map]
  exact List.length_take_le 5 _

/-- The fuzzy Cypher's rows are ordered by descending score. -/
theorem fuzzyQuery_sorted (db : Db) (term : String) :
    List.Sorted (byScoreDesc Candidate.score) (fuzzyQuery db term) := by
  unfold fuzzyQuery
  have hs :=
    List.sorted_insertionSort (byScoreDesc (fun p : Researcher × Rat => p.2))
      ((db.fulltext term).filter (fun p => inHouseR p.1))
  have ht := List.Pairwise.sublist (List.take_sublist 5 _) hs
  exact List.pairwise_map.mpr (ht.imp (fun h => h))

/-- Every fuzzy candidate row is the projection of an in-house fulltext hit. -/
theorem fuzzyQuery_mem (db : Db) (term : String) :
    ∀ c ∈ fuzzyQuery db term,
      ∃ p, p ∈ db.fulltext term ∧ inHouseR p.1 = true ∧ c = mkCandidate db p := by
  intro c hc
  unfold fuzzyQuery at hc
  rcases List.mem_map.mp hc with ⟨p, hp, rfl⟩
  have hp2 := List.mem_of_mem_take hp
  rw [List.mem_insertionSort] at hp2
  rcases List.mem_filter.mp hp2 with ⟨hmem, hhouse⟩
  exact ⟨p, hmem, hhouse, rfl⟩

/-- C6: once the author id becomes populated and the classified kind is
`OPEN_QUESTION`, the orchestrator rewrites the kind to
`AUTHOR_PUBLICATIONS_RANGE` in the resolution path, and to
`AUTHOR_MAIN_RESEARCH_AREAS` when the author id was supplied by a direct
user selection (`selected_user_id`). -/
theorem C6_promotion (w : World) (i : Intent) (q : String) :
    ((resolve_author w.db i).2.1 = none →
     truthyS (resolve_author w.db i).1.authorUserId = true →
     truthyS i.author = true →
     i.intent = some "OPEN_QUESTION" →
     (resolutionStage w i q none).1.intent = some "AUTHOR_PUBLICATIONS_RANGE")
    ∧ (∀ uid : String, truthyS (some uid) = true →
       i.intent = some "OPEN_QUESTION" →
       (resolutionStage w i q (some uid)).1.intent = some "AUTHOR_MAIN_RESEARCH_AREAS"
       ∧ (resolutionStage w i q (some uid)).1.authorUserId = some uid) := by
  constructor
  · intro h1 h2 h3 h4
    rcases hres : resolve_author w.db i with ⟨u, c, m⟩
    rw [hres] at h1 h2
    simp only at h1 h2
    subst h1
    simp only [resolutionStage, h3, Bool.not_true, Bool.false_eq_true,
      if_false, intent_eta, hres, h2]
    simp [truthyS, h2, h4]
  · intro uid hu h4
    simp only [resolutionStage, hu]
    have hb : (truthyS i.author && !(truthyS (some uid))) = false := by
      rw [hu]; simp
    simp only [hb, Bool.false_eq_true, if_false, hu, if_true]
    cases hf : w.db.persons.find? (fun p => p.userId == some uid) <;>
      simp [hf, h4]

/-- C4: when the author slot is non-empty, the exact lookup misses and the
fuzzy fulltext step matches, the resolver hands back the intent with
`authorUserId` (and every other field) unchanged, never auto-selecting, and
the caller returns a non-empty list of at most five in-house candidates,
ordered by descending score, for user disambiguation. -/
theorem C4_fuzzy_candidates (w : World) (q : String) (hist : List Turn)
    (h1 : truthyS (normalize_intent (w.classify q)).author = true)
    (h2 : ¬ pyStrip ((normalize_intent (w.classify q)).author.getD "") = "")
    (h3 : exactQuery w.db (pyStrip ((normalize_intent (w.classify q)).author.getD "")) = none)
    (h4 : ¬ fuzzyQuery w.db
        (fuzzyTerm (pyStrip ((normalize_intent (w.classify q)).author.getD ""))) = []) :
    ∃ l, (answer_question w q hist none).candidates = some l
      ∧ l = fuzzyQuery w.db
          (fuzzyTerm (pyStrip ((normalize_intent (w.classify q)).author.getD "")))
      ∧ ¬ l = []
      ∧ l.length ≤ 5
      ∧ List.Sorted (byScoreDesc Candidate.score) l
      ∧ (∀ c ∈ l, ∃ p, p ∈ w.db.fulltext
            (fuzzyTerm (pyStrip ((normalize_intent (w.classify q)).author.getD "")))
          ∧ inHouseR p.1 = true ∧ c = mkCandidate w.db p)
      ∧ (answer_question w q hist none).intent = normalize_intent (w.classify q)
      ∧ (answer_question w q hist none).intent.authorUserId
          = (normalize_intent (w.classify q)).authorUserId := by
  have hres : resolve_author w.db (normalize_intent (w.classify q))
      = (normalize_intent (w.classify q),
         some (fuzzyQuery w.db
           (fuzzyTerm (pyStrip ((normalize_intent (w.classify q)).author.getD "")))),
         ⟨.FUZZY, (fuzzyQuery w.db
           (fuzzyTerm (pyStrip ((normalize_intent (w.classify q)).author.getD "")))).map
             Candidate.score⟩) := by
    simp only [resolve_author]
    rw [if_neg h2, h3, if_neg h4]
  have hstage : resolutionStage w (normalize_intent (w.classify q)) q none
      = (normalize_intent (w.classify q),
         some (fuzzyQuery w.db
           (fuzzyTerm (pyStrip ((normalize_intent (w.classify q)).author.getD "")))),
         false) := by
    simp only [resolutionStage, h1, Bool.not_true, Bool.false_eq_true,
      if_false, intent_eta, hres]
    simp [truthyS]
  refine ⟨fuzzyQuery w.db
      (fuzzyTerm (pyStrip ((normalize_intent (w.classify q)).author.getD ""))),
    ?_, rfl, h4, fuzzyQuery_length_le _ _, fuzzyQuery_sorted _ _, fuzzyQuery_mem _ _,
    ?_, ?_⟩
  · simp only [answer_question, hstage]
  · simp only [answer_question, hstage]
  · simp only [answer_question, hstage]

/-- C1 (amended): cohort-fallback semantic hits are returned to the caller
exactly as the cohort-restricted vector query produced them — no minimum
relevance threshold is applied on either fallback entry (the semantic-
fallback branch, or the template branch after zero rows and zero topic
hits); the 0.7 threshold is applied only to topic-mode hits in the template
branch. -/
theorem C1_fallback_unfiltered (w : World) (q : String) (hist : List Turn) :
    ((resolutionStage w (normalize_intent (w.classify q)) q none).2.1 = none →
     routeTemplate (resolutionStage w (normalize_intent (w.classify q)) q none).1 = false →
     (answer_question w q hist none).semanticHits
       = semantic_search_with_embedding w.db (get_embedding w q) 20)
    ∧ ((resolutionStage w (normalize_intent (w.classify q)) q none).2.1 = none →
       routeTemplate (resolutionStage w (normalize_intent (w.classify q)) q none).1 = true →
       w.runCypher (generate_cypher w
         (resolutionStage w (normalize_intent (w.classify q)) q none).1) = [] →
       topicHitsFor w (resolutionStage w (normalize_intent (w.classify q)) q none).1 = [] →
       (answer_question w q hist none).semanticHits
         = semantic_search_with_embedding w.db (get_embedding w q) 20)
    ∧ (∀ (i : Intent) (h : Hit), h ∈ topicHitsFor w i → MIN_RELEVANCE_SCORE ≤ h.score) := by
  refine ⟨?_, ?_, ?_⟩
  · intro h1 h2
    rcases hstage : resolutionStage w (normalize_intent (w.classify q)) q none with ⟨i1, c, b⟩
    rw [hstage] at h1 h2
    simp only at h1 h2
    subst h1
    simp only [answer_question, hstage, h2, Bool.false_eq_true, if_false]
    by_cases hs : semantic_search_with_embedding w.db (get_embedding w q) 20 = [] <;>
      simp [hs]
  · intro h1 h2 h3 h4
    rcases hstage : resolutionStage w (normalize_intent (w.classify q)) q none with ⟨i1, c, b⟩
    rw [hstage] at h1 h2 h3 h4
    simp only at h1 h2 h3 h4
    subst h1
    simp only [answer_question, hstage, h2, if_true, h3, h4]
    simp
  · intro i h hmem
    unfold topicHitsFor at hmem
    by_cases hk : kindMem TOPIC_INTENTS i.intent = true
    · rw [if_pos hk] at hmem
      have := (List.mem_filter.mp hmem).2
      exact of_decide_eq_true this
    · rw [if_neg hk] at hmem
      exact absurd hmem (List.not_mem_nil h)

/-- The generated query used in claim C2's counterexample: it contains the
exact department WHERE clause the prototype patcher targets. -/
def EX_CYPHER : String :=
  "MATCH (d:Department)-[:HAS_TOPIC]->(t:Topic) WHERE toLower(d.department) = toLower(deptName) RETURN t.name"

/-- What `patch_dept_where_clause` produces from `EX_CYPHER` (the clause
broadened with the `abbr` coalesce alternative). -/
def EX_CYPHER_PATCHED : String :=
  "MATCH (d:Department)-[:HAS_TOPIC]->(t:Topic) WHERE toLower(d.department) = toLower(deptName) OR toLower(coalesce(d.abbr, \x27\x27)) = toLower(deptName) RETURN t.name"

set_option maxRecDepth 16384 in
/-- C2 (amended): the async orchestrator of `backend.py` applies no
post-generation transformation — the query it executes is exactly the
stripped generator output; the department-broadening rewrite exists only as
`patch_dept_where_clause` in the Flask prototypes (`new.py`), where it turns
the specific clause `WHERE toLower(d.department) = toLower(deptName)` into
the same clause plus an `OR` coalesce on `abbr`. -/
theorem C2_no_patch_in_orchestrator :
    (∀ (w : World) (q : String) (hist : List Turn) (sel : Option String),
      (resolutionStage w (normalize_intent (w.classify q)) q sel).2.1 = none →
      routeTemplate (resolutionStage w (normalize_intent (w.classify q)) q sel).1 = true →
      (answer_question w q hist sel).cypher
        = generate_cypher w (resolutionStage w (normalize_intent (w.classify q)) q sel).1)
    ∧ patch_dept_where_clause EX_CYPHER = EX_CYPHER_PATCHED := by
  constructor
  · intro w q hist sel h1 h2
    rcases hstage : resolutionStage w (normalize_intent (w.classify q)) q sel with ⟨i1, c, b⟩
    rw [hstage] at h1 h2
    simp only at h1 h2
    subst h1
    simp only [answer_question, hstage, h2, if_true]
  · decide

/-! ## Concrete instances used by counterexamples and witnesses -/

/-- An empty graph database with a healthy (but empty) vector index. -/
def emptyDb : Db :=
  { researchers := []
  , researcherDepts := fun _ => []
  , fulltext := fun _ => []
  , persons := []
  , pubAuthors := fun _ => []
  , vectorQuery := fun _ _ => Except.ok [] }

/-- A baseline world over a given database, with inert LLM collaborators. -/
def baseWorld (db : Db) : World :=
  { db := db
  , classify := fun _ => {}
  , embed := fun _ => [1]
  , genCypher := fun _ => ""
  , authorCypherLlm := fun _ => ""
  , extractName := fun _ => ""
  , runCypher := fun _ => []
  , runCypherTitles := fun _ _ => []
  , synthAnswer := fun _ _ _ _ _ _ => "synthesized answer"
  , synthFinal := fun _ _ _ _ => "final author answer"
  , reask := fun _ _ _ => "second pass answer" }

def W0 : World := baseWorld emptyDb

/-- A publication whose vector score (1/2) is below the 0.7 threshold. -/
def pub1 : Pub :=
  { title := some "Smart grid stability assessment"
  , publication_year := some 2020
  , cited_by_count := some 12
  , openalex_url := some "https://openalex.org/W1" }

/-- An in-house person (has a `userId`). -/
def person1 : Person := { name := some "Petr", userId := some "u42" }

/-- A database whose vector index returns one in-house hit scoring 1/2. -/
def db1 : Db :=
  { emptyDb with
      persons := [person1]
    , pubAuthors := fun _ => [person1]
    , vectorQuery := fun _ _ => Except.ok [(pub1, mkRat 1 2)] }

/-- A world whose classifier yields a bare open question (semantic path). -/
def W1 : World :=
  { baseWorld db1 with classify := fun _ => { intent := some "OPEN_QUESTION" } }

/-- A world whose classifier yields a slotted template intent but whose
generated query returns zero rows (template branch, fallback entry). -/
def W4 : World :=
  { baseWorld db1 with
      classify := fun _ =>
        { intent := some "AUTHOR_LATEST_PUBLICATION", authorUserId := some "u42" } }

set_option maxRecDepth 16384 in
/-- C1 counterexample: on the semantic-fallback path the caller receives a
hit with score 1/2 < 0.7, so not every returned cohort-fallback hit meets
the minimum relevance threshold claimed. -/
theorem C1_counterexample :
    ¬ (∀ h ∈ (answer_question W1 "who is working on smart grids?" [] none).semanticHits,
        MIN_RELEVANCE_SCORE ≤ h.score) := by
  decide

set_option maxRecDepth 16384 in
/-- Witness instantiating both fallback entries of the amended claim C1. -/
theorem C1_unfiltered_witness :
    ((answer_question W1 "who is working on smart grids?" [] none).semanticHits
       = semantic_search_with_embedding W1.db
           (get_embedding W1 "who is working on smart grids?") 20)
    ∧ ((answer_question W4 "latest paper?" [] none).semanticHits
       = semantic_search_with_embedding W4.db (get_embedding W4 "latest paper?") 20) :=
  ⟨(C1_fallback_unfiltered W1 "who is working on smart grids?" []).1 (by decide) (by decide),
   (C1_fallback_unfiltered W4 "latest paper?" []).2.1 (by decide) (by decide)
     (by decide) (by decide)⟩

/-- A world that classifies a department-trends question and generates
`EX_CYPHER` (which contains the department WHERE clause). -/
def W2 : World :=
  { baseWorld emptyDb with
      classify := fun _ =>
        { intent := some "DEPARTMENT_TOPIC_TRENDS", department := Json.str "ECE" }
    , genCypher := fun _ => EX_CYPHER
    , runCypher := fun _ => [[("topic", Json.str "machine learning")]] }

set_option maxRecDepth 16384 in
/-- C2 counterexample: the orchestrator executes `EX_CYPHER` completely
unchanged even though it contains a department WHERE clause that the
broadening transformation would rewrite (the patched form differs). -/
theorem C2_counterexample :
    (answer_question W2 "Which research topics show the greatest increase for ECE?"
        [] none).cypher = EX_CYPHER
    ∧ ¬ patch_dept_where_clause EX_CYPHER = EX_CYPHER := by
  constructor
  · decide
  · decide

set_option maxRecDepth 16384 in
/-- Witness instantiating the amended claim C2 at the same world. -/
theorem C2_verbatim_witness :
    ((answer_question W2 "Which research topics show the greatest increase for ECE?"
        [] none).cypher
      = generate_cypher W2
          (resolutionStage W2
            (normalize_intent
              (W2.classify "Which research topics show the greatest increase for ECE?"))
            "Which research topics show the greatest increase for ECE?" none).1)
    ∧ patch_dept_where_clause EX_CYPHER = EX_CYPHER_PATCHED :=
  ⟨C2_no_patch_in_orchestrator.1 W2
     "Which research topics show the greatest increase for ECE?" [] none
     (by decide) (by decide),
   C2_no_patch_in_orchestrator.2⟩

/-- Witness instantiating claim C3 on a concrete request. -/
theorem C3_window_witness :
    ¬ pyStrip "hi" = ""
    ∧ ((api_query W0 "hi" none []).history
        = lastN 10 ([] ++ [⟨"user", pyStrip "hi"⟩,
            ⟨"assistant", (answer_question W0 (pyStrip "hi") [] none).answer⟩])
      ∧ (api_query W0 "hi" none []).history.length ≤ 10) :=
  ⟨by decide, C3_history_window W0 "hi" none [] (by decide)⟩

/-- An in-house researcher used by the resolution witnesses. -/
def reformat : Researcher :=
  { name := some "Marek Reformat", normalized_name := some "marek reformat"
  , userId := some "u1" }

/-- The same researcher's `:Person` node. -/
def personReformat : Person := { name := some "Marek Reformat", userId := some "u1" }

def db6 : Db := { emptyDb with researchers := [reformat], persons := [personReformat] }

def W6 : World := baseWorld db6

/-- An open-question intent carrying the author's exact name. -/
def i6 : Intent := { intent := some "OPEN_QUESTION", author := some "Marek Reformat" }

/-- Witness instantiating both promotion paths of claim C6. -/
theorem C6_promotion_witness :
    (resolutionStage W6 i6 "q" none).1.intent = some "AUTHOR_PUBLICATIONS_RANGE"
    ∧ ((resolutionStage W6 i6 "q" (some "u1")).1.intent
          = some "AUTHOR_MAIN_RESEARCH_AREAS"
       ∧ (resolutionStage W6 i6 "q" (some "u1")).1.authorUserId = some "u1") :=
  ⟨(C6_promotion W6 i6 "q").1 (by decide) (by decide) (by decide) (by decide),
   (C6_promotion W6 i6 "q").2 "u1" (by decide) (by decide)⟩

/-- Two in-house fulltext matches for the fuzzy witness. -/
def refB : Researcher :=
  { name := some "Mark Refanek", normalized_name := some "mark refanek"
  , ccid := some "c2" }

def db4 : Db := { emptyDb with fulltext := fun _ => [(refB, mkRat 1 1), (reformat, mkRat 3 2)] }

/-- A world whose classifier finds a misspelled author name. -/
def W5 : World :=
  { baseWorld db4 with
      classify := fun _ =>
        { intent := some "OPEN_QUESTION", author := some "Marek Refamt" } }

set_option maxRecDepth 16384 in
/-- Witness instantiating claim C4 on a concrete fuzzy resolution. -/
theorem C4_candidates_witness :
    ∃ l, (answer_question W5 "papers by Marek Refamt" [] none).candidates = some l
      ∧ l = fuzzyQuery W5.db (fuzzyTerm (pyStrip
          ((normalize_intent (W5.classify "papers by Marek Refamt")).author.getD "")))
      ∧ ¬ l = []
      ∧ l.length ≤ 5
      ∧ List.Sorted (byScoreDesc Candidate.score) l
      ∧ (∀ c ∈ l, ∃ p, p ∈ W5.db.fulltext (fuzzyTerm (pyStrip
            ((normalize_intent (W5.classify "papers by Marek Refamt")).author.getD "")))
          ∧ inHouseR p.1 = true ∧ c = mkCandidate W5.db p)
      ∧ (answer_question W5 "papers by Marek Refamt" [] none).intent
          = normalize_intent (W5.classify "papers by Marek Refamt")
      ∧ (answer_question W5 "papers by Marek Refamt" [] none).intent.authorUserId
          = (normalize_intent (W5.classify "papers by Marek Refamt")).authorUserId :=
  C4_fuzzy_candidates W5 "papers by Marek Refamt" []
    (by decide) (by decide) (by decide) (by decide)

/-- A database whose vector index is unavailable. -/
def db9 : Db :=
  { emptyDb with vectorQuery := fun _ _ => Except.error "vector index unavailable" }

def W9 : World := baseWorld db9

/-- Witness instantiating claim C9 on an unavailable vector index. -/
theorem C9_failure_witness :
    W9.db.vectorQuery (get_embedding W9 "smart grids") 200
        = Except.error "vector index unavailable"
    ∧ W9.db.vectorQuery [1] 20 = Except.error "vector index unavailable"
    ∧ (semantic_search_publications W9 (some "smart grids") 200 = []
       ∧ semantic_search_with_embedding W9.db [1] 20 = []) :=
  ⟨by decide, by decide,
   C9_vector_failure_yields_empty W9 "smart grids" [1] 20
     "vector index unavailable" "vector index unavailable" (by decide) (by decide)⟩
